import Mathlib

/-!
Shallow embedding of the OAuth Bearer-token lifecycle subsystem of the
repository (files `examples/agentcore/agent/auth_helper.py`,
`examples/agentcore/agent/token_manager.py`,
`examples/agentcore/agent/credential_cache.py`).

Modelling conventions:
* timestamps (`datetime`) are integers counting seconds; `timedelta(seconds=s)`
  is the integer `s`, `timedelta(minutes=m)` is `m * 60`;
* the Cognito provider is an oracle: each `initiate_auth` /
  `respond_to_auth_challenge` round trip is one `CognitoResult` value supplied
  as an argument, and every operation additionally returns the number of
  provider round trips it performed;
* Python exceptions become `Except AuthError`; the four exception classes of
  `auth_helper.py` become the four constructors of `AuthError`;
* the non-reentrant `threading.Lock` of `TokenManager` is modelled by a
  `locked` flag: a method that executes `with self._token_lock:` while the
  calling thread already holds that lock blocks forever, which the model
  renders as the result `none` (and `0` further provider round trips);
* the `Diagnostic info: {...}` dictionary rendered into the messages of the
  generic `except Exception` re-wrap branches is abstracted by a fixed
  placeholder string (no claim depends on those message texts, only on the
  raised exception class).
-/

set_option autoImplicit false

/-- The four exception classes of `auth_helper.py` (all subclasses of
`AuthenticationError` in the source; here a closed sum). -/
inductive AuthError where
  | invalidCredentials (message : String)
  | tokenExpired (message : String)
  | configurationError (message : String)
  | authenticationError (message : String)
deriving DecidableEq, Repr

/-- `str(e)` for the modelled exceptions: the message they carry. -/
def AuthError.msg : AuthError → String
  | .invalidCredentials m => m
  | .tokenExpired m => m
  | .configurationError m => m
  | .authenticationError m => m

/-- One Cognito response to `initiate_auth` / `respond_to_auth_challenge`:
either an `AuthenticationResult` payload (with the optional keys the code
reads via `.get`), a challenge, a response with neither key
(`malformed`), or a `botocore` `ClientError` carrying a code and message. -/
inductive CognitoResult where
  | authResult (accessToken : String) (refreshToken : Option String)
      (expiresIn : Option Int) (tokenType : Option String)
  | challenge (challengeName : String) (session : Option String)
  | malformed
  | clientError (code : String) (message : String)
deriving DecidableEq, Repr

/-- `TokenResponse` dataclass of `auth_helper.py`. -/
structure TokenResponse where
  access_token : String
  refresh_token : String
  expires_in : Int
  token_type : String := "Bearer"
  expires_at : Option Int := none
deriving DecidableEq, Repr

/-- `TokenResponse.__post_init__`: sets `expires_at := now + expires_in`, but
only when `expires_at` is `None` AND `expires_in` is truthy (nonzero). -/
def TokenResponse.postInit (now : Int) (t : TokenResponse) : TokenResponse :=
  if t.expires_at = none ∧ t.expires_in ≠ 0 then
    { t with expires_at := some (now + t.expires_in) }
  else t

/-- Construction of a `TokenResponse` as the source does it (constructor call
without `expires_at`, immediately followed by `__post_init__`). -/
def mkTokenResponse (now : Int) (access refresh : String) (ein : Int)
    (tt : String) : TokenResponse :=
  TokenResponse.postInit now
    { access_token := access, refresh_token := refresh, expires_in := ein,
      token_type := tt, expires_at := none }

/-- Outcome of an `McpAuthHelper` operation: the returned string or the raised
exception, the helper's `_current_token` afterwards, and the number of
provider round trips performed. -/
abbrev AuthOutcome := Except AuthError String × Option TokenResponse × Nat

/-- Placeholder for the rendered `get_diagnostic_info()` dictionary. -/
def diagInfoText : String := "<diagnostic info>"

/-- Message produced by `get_bearer_token`'s trailing `except Exception`
re-wrap branch. -/
def unexpectedAuthWrap (inner : String) : String :=
  "Unexpected authentication error: " ++ inner ++ ". Diagnostic info: "
    ++ diagInfoText

/-- Message produced by `refresh_token`'s trailing `except Exception` re-wrap
branch. -/
def unexpectedRefreshWrap (inner : String) : String :=
  "Unexpected token refresh error: " ++ inner ++ ". Diagnostic info: "
    ++ diagInfoText

/-- Message of the `AuthenticationError` raised for an unsupported challenge
(the conditional expression in the source applies to the whole concatenated
f-string; `session[:20]` is the first 20 characters). -/
def challengeOtherMessage (name : String) (session : Option String) : String :=
  match session with
  | some s =>
      if s ≠ "" then
        "Authentication challenge required: " ++ name ++ ". Session: "
          ++ (s.take 20) ++ "..."
      else "No session provided."
  | none => "No session provided."

namespace McpAuthHelper

/-- `McpAuthHelper._handle_new_password_required`, driven by the oracle
response to `respond_to_auth_challenge`. Errors it raises are reported
unwrapped here; the caller (`get_bearer_token`) wraps them (its own
`except Exception` catches everything escaping the function call). -/
def handle_new_password_required (challengeResp : CognitoResult) (now : Int)
    (cur : Option TokenResponse) : AuthOutcome :=
  match challengeResp with
  | .authResult a rt ein tt =>
      let tok := mkTokenResponse now a (rt.getD "") (ein.getD 3600)
        (tt.getD "Bearer")
      (.ok tok.access_token, some tok, 1)
  | .clientError code m =>
      if code = "InvalidPasswordException" then
        (.error (.authenticationError ("Password does not meet requirements: "
          ++ m ++ ". Please ensure password meets Cognito password policy requirements.")),
         cur, 1)
      else if code = "NotAuthorizedException" then
        (.error (.authenticationError ("Not authorized to change password: " ++ m)),
         cur, 1)
      else
        (.error (.authenticationError ("Password change failed with error "
          ++ code ++ ": " ++ m)), cur, 1)
  | _ =>
      -- no `AuthenticationResult` key: the in-`try` raise is caught by the
      -- function's own `except Exception` and re-wrapped
      (.error (.authenticationError
        ("Unexpected error during password change: Unexpected response after password change")),
       cur, 1)

/-- `McpAuthHelper.get_bearer_token`, driven by the oracle response `resp` to
`initiate_auth` (and `challengeResp` for a possible NEW_PASSWORD_REQUIRED
round trip). Raises inside the `try` suite (including everything escaping
`_handle_new_password_required`) are caught by the trailing
`except Exception` and re-wrapped; raises inside the `except ClientError`
handler propagate as written. -/
def get_bearer_token (resp challengeResp : CognitoResult) (now : Int)
    (cur : Option TokenResponse) : AuthOutcome :=
  match resp with
  | .authResult a rt ein tt =>
      let tok := mkTokenResponse now a (rt.getD "") (ein.getD 3600)
        (tt.getD "Bearer")
      (.ok tok.access_token, some tok, 1)
  | .challenge name session =>
      if name = "NEW_PASSWORD_REQUIRED" then
        match handle_new_password_required challengeResp now cur with
        | (.ok a, st, n) => (.ok a, st, n + 1)
        | (.error e, st, n) =>
            (.error (.authenticationError (unexpectedAuthWrap e.msg)), st, n + 1)
      else
        (.error (.authenticationError
          (unexpectedAuthWrap (challengeOtherMessage name session))), cur, 1)
  | .malformed =>
      (.error (.authenticationError
        (unexpectedAuthWrap "Unexpected authentication response format")), cur, 1)
  | .clientError code m =>
      if code = "NotAuthorizedException" then
        (.error (.invalidCredentials ("Invalid username or password: " ++ m)), cur, 1)
      else if code = "UserNotFoundException" then
        (.error (.invalidCredentials ("User not found: " ++ m)), cur, 1)
      else if code = "ResourceNotFoundException" then
        (.error (.configurationError
          ("Cognito configuration invalid - User Pool or Client not found: " ++ m)),
         cur, 1)
      else if code = "InvalidParameterException" then
        (.error (.configurationError ("Invalid Cognito parameters: " ++ m)), cur, 1)
      else
        (.error (.authenticationError ("Authentication failed with error "
          ++ code ++ ": " ++ m)), cur, 1)

/-- `McpAuthHelper.refresh_token`, driven by the oracle response `resp`.
`rt` is the `refresh_token` argument. When a current token is held its
`access_token`, `expires_in` and `expires_at` are mutated in place; otherwise
a new `TokenResponse` is constructed keeping the original refresh token. -/
def refresh_token (resp : CognitoResult) (now : Int) (rt : String)
    (cur : Option TokenResponse) : AuthOutcome :=
  match resp with
  | .authResult a _ ein tt =>
      match cur with
      | some t =>
          let ein' := ein.getD 3600
          let t' := { t with access_token := a, expires_in := ein',
                             expires_at := some (now + ein') }
          (.ok t'.access_token, some t', 1)
      | none =>
          let t' := mkTokenResponse now a rt (ein.getD 3600) (tt.getD "Bearer")
          (.ok t'.access_token, some t', 1)
  | .clientError code m =>
      if code = "NotAuthorizedException" then
        (.error (.tokenExpired ("Refresh token expired or invalid: " ++ m)), cur, 1)
      else if code = "ResourceNotFoundException" then
        (.error (.configurationError ("Cognito configuration invalid: " ++ m)), cur, 1)
      else
        (.error (.authenticationError ("Token refresh failed with error "
          ++ code ++ ": " ++ m)), cur, 1)
  | _ =>
      -- no `AuthenticationResult` key: in-`try` raise, re-wrapped by the
      -- trailing `except Exception`
      (.error (.authenticationError
        (unexpectedRefreshWrap "Unexpected token refresh response format")), cur, 1)

end McpAuthHelper

namespace TokenManager

/-- `TokenManager._needs_refresh`: false when the token has no `expires_at`
(`not token.expires_at`; a datetime is always truthy), else true when
`now >= expires_at - refresh_buffer_seconds`. -/
def _needs_refresh (buffer : Int) (t : TokenResponse) (now : Int) : Bool :=
  match t.expires_at with
  | none => false
  | some e => decide (now ≥ e - buffer)

/-- `TokenManager.refresh_if_needed`. The method opens with
`with self._token_lock:` on the manager's non-reentrant `threading.Lock`;
`locked` says whether the calling thread already holds that lock, in which
case the acquisition blocks forever (`none`, zero further round trips).
The single `try/except TokenExpiredError` spans both the refresh-token branch
and the no-refresh-token re-authentication branch; on `TokenExpiredError` the
manager falls back to a full `get_bearer_token` login. The refresh
notification callback only forwards the new token string and touches no
modelled state, so it is not represented. -/
def refresh_if_needed (buffer : Int)
    (refreshResp loginResp challengeResp : CognitoResult) (now : Int)
    (cur : Option TokenResponse) (locked : Bool) :
    Option (Except AuthError String × Option TokenResponse) × Nat :=
  if locked then (none, 0) else
  match cur with
  | none =>
      (some (.error (.authenticationError "No token available for refresh"), none), 0)
  | some t =>
      if _needs_refresh buffer t now then
        let attempt : AuthOutcome :=
          if t.refresh_token ≠ "" then
            McpAuthHelper.refresh_token refreshResp now t.refresh_token (some t)
          else
            McpAuthHelper.get_bearer_token loginResp challengeResp now (some t)
        match attempt with
        | (.error (.tokenExpired _), st1, n1) =>
            let fallback := McpAuthHelper.get_bearer_token loginResp challengeResp now st1
            (some (fallback.1, fallback.2.1), n1 + fallback.2.2)
        | (r, st, n) => (some (r, st), n)
      else
        (some (.ok t.access_token, some t), 0)

/-- `TokenManager.get_valid_token`. Acquires the manager lock, then: no
current token → full login (the auto-refresh background thread started here
touches no modelled state); token needing refresh → calls
`refresh_if_needed`, whose own `with self._token_lock:` re-acquires the lock
this thread already holds; otherwise returns the current access token. -/
def get_valid_token (buffer : Int)
    (loginResp challengeResp refreshResp : CognitoResult) (now : Int)
    (cur : Option TokenResponse) (locked : Bool) :
    Option (Except AuthError String × Option TokenResponse) × Nat :=
  if locked then (none, 0) else
  match cur with
  | none =>
      let out := McpAuthHelper.get_bearer_token loginResp challengeResp now none
      (some (out.1, out.2.1), out.2.2)
  | some t =>
      if _needs_refresh buffer t now then
        refresh_if_needed buffer refreshResp loginResp challengeResp now (some t) true
      else
        (some (.ok t.access_token, some t), 0)

/-- `TokenManager.force_refresh`: logs and delegates to `refresh_if_needed`
(the calling thread holds no lock on entry). -/
def force_refresh (buffer : Int)
    (refreshResp loginResp challengeResp : CognitoResult) (now : Int)
    (cur : Option TokenResponse) :
    Option (Except AuthError String × Option TokenResponse) × Nat :=
  refresh_if_needed buffer refreshResp loginResp challengeResp now cur false

end TokenManager

/-- `CachedCredential` dataclass of `credential_cache.py`. -/
structure CachedCredential where
  username : String
  password : String
  cached_at : Int
  expires_at : Int
  access_count : Nat := 0
deriving DecidableEq, Repr

/-- `CachedCredential.is_expired`: `datetime.utcnow() >= self.expires_at`. -/
def CachedCredential.is_expired (c : CachedCredential) (now : Int) : Bool :=
  decide (now ≥ c.expires_at)

namespace SecureCredentialCache

/-- The cache's `_cache` dict, as an insertion-ordered association list with
unique keys. -/
abbrev Cache := List (String × CachedCredential)

/-- `self._cache.get(key)`. -/
def lookup (cache : Cache) (key : String) : Option CachedCredential :=
  (cache.find? (fun kv => kv.1 == key)).map (fun kv => kv.2)

/-- `SecureCredentialCache._secure_clear_credential`: best-effort password
overwrite followed by `del self._cache[key]`; net effect on the map is
removal of the entry. -/
def _secure_clear_credential (cache : Cache) (key : String) : Cache :=
  cache.filter (fun kv => kv.1 != key)

/-- `SecureCredentialCache.cache_credentials`. Note the source computes
`ttl = timedelta(minutes=ttl_minutes) if ttl_minutes else self.default_ttl`:
the default TTL applies whenever `ttl_minutes` is falsy, i.e. `None` or 0. -/
def cache_credentials (default_ttl_minutes : Int) (cache : Cache)
    (key username password : String) (ttl_minutes : Option Int) (now : Int) :
    Cache :=
  let ttl : Int :=
    match ttl_minutes with
    | some m => if m ≠ 0 then m * 60 else default_ttl_minutes * 60
    | none => default_ttl_minutes * 60
  let expires_at := now + ttl
  let cache' :=
    if (lookup cache key).isSome then _secure_clear_credential cache key
    else cache
  cache' ++ [(key,
    { username := username, password := password, cached_at := now,
      expires_at := expires_at })]

/-- `SecureCredentialCache.get_credentials`: miss → `None`; expired entry →
self-evict and `None`; otherwise increment the entry's access counter in
place and return the pair. -/
def get_credentials (cache : Cache) (key : String) (now : Int) :
    Option (String × String) × Cache :=
  match lookup cache key with
  | none => (none, cache)
  | some c =>
      if c.is_expired now then (none, _secure_clear_credential cache key)
      else
        let c' := { c with access_count := c.access_count + 1 }
        (some (c.username, c.password),
         cache.map (fun kv => if kv.1 == key then (kv.1, c') else kv))

end SecureCredentialCache

/-! ## Concrete states used by the claim theorems -/

/-- A current token inside its refresh window but not yet expired
(`expires_at = 1200`, checked at `now = 1000` with a 300s buffer). -/
def tokNeedsRefresh : TokenResponse :=
  { access_token := "a0", refresh_token := "r0", expires_in := 3600,
    token_type := "Bearer", expires_at := some 1200 }

/-- A current token that is fully expired at `now = 1000`. -/
def tokExpired : TokenResponse :=
  { access_token := "a0", refresh_token := "r0", expires_in := 3600,
    token_type := "Bearer", expires_at := some 500 }

/-- A current token far from its refresh window at `now = 1000`. -/
def tokFresh : TokenResponse :=
  { access_token := "a0", refresh_token := "r0", expires_in := 3600,
    token_type := "Bearer", expires_at := some 1000000 }

/-- A current token held while a refresh exchange is performed. -/
def tokHeld : TokenResponse :=
  { access_token := "a0", refresh_token := "r0", expires_in := 3600,
    token_type := "Bearer", expires_at := some 100 }

/-! ## Claim theorems -/

/-- C1: the claim says a `get_valid_token()` call on a state whose current
token needs refresh delegates to `refresh_if_needed` and returns its result.
In the code, `get_valid_token` holds the non-reentrant `threading.Lock` when
it calls `refresh_if_needed`, whose own `with self._token_lock:` re-acquires
that lock: the call blocks forever — whatever the provider would answer, it
returns nothing and performs zero provider round trips. -/
theorem c1_get_valid_token_refresh_path_deadlocks
    (loginResp challengeResp refreshResp : CognitoResult) :
    TokenManager.get_valid_token 300 loginResp challengeResp refreshResp 1000
        (some tokNeedsRefresh) false
      = (none, 0) := rfl

/-- C2: `cache_credentials(key, "u", "p", ttl_minutes=0)` followed immediately
by `get_credentials(key)` is claimed to return none. Because
`ttl = timedelta(minutes=ttl_minutes) if ttl_minutes else self.default_ttl`
treats `0` as falsy, the entry instead gets the default 30-minute TTL and
`get_credentials` returns the cached pair. -/
theorem c2_zero_ttl_entry_is_returned :
    (SecureCredentialCache.get_credentials
        (SecureCredentialCache.cache_credentials 30 [] "k" "u" "p" (some 0) 0)
        "k" 0).1
      = some ("u", "p") := rfl

/-- C3: the claim (and the method's own docstring) says `force_refresh()`
refreshes regardless of expiration status. The code delegates to
`refresh_if_needed`, which checks the due-condition: on a token well before
its refresh window it returns the existing access token with zero provider
round trips and unchanged state, whatever the provider would answer. -/
theorem c3_force_refresh_performs_due_check
    (refreshResp loginResp challengeResp : CognitoResult) :
    TokenManager.force_refresh 300 refreshResp loginResp challengeResp 1000
        (some tokFresh)
      = (some (.ok "a0", some tokFresh), 0) := rfl

/-- C4 (counterexample): at a successful refresh exchange whose provider
response carries token type `"DPoP"` and a new refresh token `"r1"`, the held
token's `token_type` is not updated to `"DPoP"` and its `refresh_token` is
not replaced by `"r1"`, contradicting the claim that the token type is
updated and a provider-returned refresh token replaces the old one. -/
theorem c4_counterexample_type_and_refresh_token_not_updated :
    ((McpAuthHelper.refresh_token
        (.authResult "a1" (some "r1") (some 1800) (some "DPoP")) 5000 "r0"
        (some tokHeld)).2.1.map TokenResponse.token_type ≠ some "DPoP")
    ∧ ((McpAuthHelper.refresh_token
        (.authResult "a1" (some "r1") (some 1800) (some "DPoP")) 5000 "r0"
        (some tokHeld)).2.1.map TokenResponse.refresh_token ≠ some "r1") := by
  constructor <;> decide

/-- C4 (amended): for every successful refresh exchange made while a current
token is held, the token's `access_token`, `expires_in` and `expires_at`
(now + expires_in) are updated in place and the new access token is returned
after one round trip; `token_type` and `refresh_token` are left unchanged —
regardless of any token type or new refresh token in the provider's
response — and nothing else changes. -/
theorem c4_refresh_updates_in_place_preserving_type_and_refresh_token
    (t : TokenResponse) (a : String) (nrt : Option String) (ein : Option Int)
    (tt : Option String) (rtArg : String) (now : Int) :
    McpAuthHelper.refresh_token (.authResult a nrt ein tt) now rtArg (some t)
      = (.ok a,
         some { t with access_token := a, expires_in := ein.getD 3600,
                       expires_at := some (now + ein.getD 3600) },
         1) := rfl

/-- C5 (counterexample): a login whose provider response reports
`ExpiresIn = 0` creates a token whose `expires_at` is `None`, not
issuance time + 0, contradicting the claim that `expires_at` equals
issuance time plus `expires_in` for every reported value including 0. -/
theorem c5_counterexample_zero_expires_in_leaves_expires_at_unset :
    ((McpAuthHelper.get_bearer_token (.authResult "a1" (some "r1") (some 0) none)
        .malformed 42 none).2.1.map TokenResponse.expires_at) = some none
    ∧ ((McpAuthHelper.get_bearer_token (.authResult "a1" (some "r1") (some 0) none)
        .malformed 42 none).2.1.map TokenResponse.expires_at) ≠ some (some (42 + 0)) := by
  constructor <;> decide

/-- C5 (amended): every token the client constructs (login, challenge
completion, and refresh without a held token all build it via
`mkTokenResponse`) derives `expires_at` as issuance time + `expires_in`
when `expires_in` is nonzero; when the provider reports `expires_in = 0`,
`expires_at` is left unset (`None`) instead. -/
theorem c5_expires_at_derived_from_nonzero_expires_in
    (now : Int) (access refresh : String) (ein : Int) (tt : String) :
    (ein ≠ 0 → (mkTokenResponse now access refresh ein tt).expires_at
        = some (now + ein))
    ∧ (ein = 0 → (mkTokenResponse now access refresh ein tt).expires_at
        = none) := by
  constructor
  · intro h
    simp [mkTokenResponse, TokenResponse.postInit, h]
  · intro h
    simp [mkTokenResponse, TokenResponse.postInit, h]

/-- C5 witness: the amended claim evaluated at `expires_in = 5` (derived
expiry) and `expires_in = 0` (expiry left unset). -/
theorem c5_expires_at_derived_witness :
    (mkTokenResponse 10 "a" "r" 5 "Bearer").expires_at = some (10 + 5)
    ∧ (mkTokenResponse 10 "a" "r" 0 "Bearer").expires_at = none :=
  ⟨(c5_expires_at_derived_from_nonzero_expires_in 10 "a" "r" 5 "Bearer").1
      (by decide),
   (c5_expires_at_derived_from_nonzero_expires_in 10 "a" "r" 0 "Bearer").2 rfl⟩

/-- C6: during `get_bearer_token` the raised exception class is determined
exactly by the provider error code: `NotAuthorizedException` and
`UserNotFoundException` raise `InvalidCredentialsError` whose message is a
fixed prefix followed by the provider message text (so it contains that
text); `ResourceNotFoundException` and `InvalidParameterException` raise
`ConfigurationError`; every other code raises `AuthenticationError`. -/
theorem c6_get_bearer_token_error_taxonomy
    (challengeResp : CognitoResult) (now : Int) (cur : Option TokenResponse)
    (code m : String) :
    (code = "NotAuthorizedException" →
      (McpAuthHelper.get_bearer_token (.clientError code m) challengeResp now cur).1
        = .error (.invalidCredentials ("Invalid username or password: " ++ m)))
    ∧ (code = "UserNotFoundException" →
      (McpAuthHelper.get_bearer_token (.clientError code m) challengeResp now cur).1
        = .error (.invalidCredentials ("User not found: " ++ m)))
    ∧ (code = "ResourceNotFoundException" →
      (McpAuthHelper.get_bearer_token (.clientError code m) challengeResp now cur).1
        = .error (.configurationError
            ("Cognito configuration invalid - User Pool or Client not found: " ++ m)))
    ∧ (code = "InvalidParameterException" →
      (McpAuthHelper.get_bearer_token (.clientError code m) challengeResp now cur).1
        = .error (.configurationError ("Invalid Cognito parameters: " ++ m)))
    ∧ (code ≠ "NotAuthorizedException" → code ≠ "UserNotFoundException" →
       code ≠ "ResourceNotFoundException" → code ≠ "InvalidParameterException" →
      (McpAuthHelper.get_bearer_token (.clientError code m) challengeResp now cur).1
        = .error (.authenticationError
            ("Authentication failed with error " ++ code ++ ": " ++ m))) := by
  refine ⟨?_, ?_, ?_, ?_, ?_⟩
  · intro h; subst h; rfl
  · intro h; subst h; rfl
  · intro h; subst h; rfl
  · intro h; subst h; rfl
  · intro h1 h2 h3 h4
    simp [McpAuthHelper.get_bearer_token, h1, h2, h3, h4]

/-- C6 witness: the taxonomy evaluated at `NotAuthorizedException` (provider
message contained in the `InvalidCredentialsError`) and at an unlisted code
(catch-all `AuthenticationError`). -/
theorem c6_get_bearer_token_error_taxonomy_witness :
    (McpAuthHelper.get_bearer_token
        (.clientError "NotAuthorizedException" "bad pw") .malformed 0 none).1
      = .error (.invalidCredentials ("Invalid username or password: " ++ "bad pw"))
    ∧ (McpAuthHelper.get_bearer_token
        (.clientError "TooManyRequestsException" "slow down") .malformed 0 none).1
      = .error (.authenticationError
          ("Authentication failed with error " ++ "TooManyRequestsException"
            ++ ": " ++ "slow down")) :=
  ⟨(c6_get_bearer_token_error_taxonomy .malformed 0 none
      "NotAuthorizedException" "bad pw").1 rfl,
   (c6_get_bearer_token_error_taxonomy .malformed 0 none
      "TooManyRequestsException" "slow down").2.2.2.2
      (by decide) (by decide) (by decide) (by decide)⟩

/-- C7: when the current token needs refresh and holds a refresh token and
the refresh exchange fails, `refresh_if_needed` catches exactly
`TokenExpiredError`, falling back to a full username/password login and
returning that login's outcome (with its extra round trips); any other error
value is propagated to the caller unchanged, with unchanged token state. -/
theorem c7_refresh_if_needed_catches_exactly_token_expired
    (buffer : Int) (t : TokenResponse) (now : Int)
    (refreshResp loginResp challengeResp : CognitoResult)
    (e : AuthError) (st1 : Option TokenResponse) (n1 : Nat)
    (hdue : TokenManager._needs_refresh buffer t now = true)
    (hrt : t.refresh_token ≠ "")
    (hfail : McpAuthHelper.refresh_token refreshResp now t.refresh_token (some t)
      = (.error e, st1, n1)) :
    (∀ m, e = .tokenExpired m →
      TokenManager.refresh_if_needed buffer refreshResp loginResp challengeResp
          now (some t) false
        = (some ((McpAuthHelper.get_bearer_token loginResp challengeResp now st1).1,
                 (McpAuthHelper.get_bearer_token loginResp challengeResp now st1).2.1),
           n1 + (McpAuthHelper.get_bearer_token loginResp challengeResp now st1).2.2))
    ∧ ((∀ m, e ≠ .tokenExpired m) →
      TokenManager.refresh_if_needed buffer refreshResp loginResp challengeResp
          now (some t) false
        = (some (.error e, st1), n1)) := by
  constructor
  · intro m hm
    subst hm
    simp [TokenManager.refresh_if_needed, hdue, hrt, hfail]
  · intro hne
    cases e with
    | tokenExpired m => exact absurd rfl (hne m)
    | invalidCredentials m =>
        simp [TokenManager.refresh_if_needed, hdue, hrt, hfail]
    | configurationError m =>
        simp [TokenManager.refresh_if_needed, hdue, hrt, hfail]
    | authenticationError m =>
        simp [TokenManager.refresh_if_needed, hdue, hrt, hfail]

/-- C7 witness: a refresh exchange answered with provider code
`NotAuthorizedException` (hence `TokenExpiredError`) makes
`refresh_if_needed` perform — and return the outcome of — a fresh login. -/
theorem c7_refresh_if_needed_catches_token_expired_witness :
    TokenManager.refresh_if_needed 300 (.clientError "NotAuthorizedException" "gone")
        (.authResult "a1" (some "r1") (some 3600) none) .malformed 1000
        (some tokNeedsRefresh) false
      = (some ((McpAuthHelper.get_bearer_token
                  (.authResult "a1" (some "r1") (some 3600) none) .malformed 1000
                  (some tokNeedsRefresh)).1,
               (McpAuthHelper.get_bearer_token
                  (.authResult "a1" (some "r1") (some 3600) none) .malformed 1000
                  (some tokNeedsRefresh)).2.1),
         1 + (McpAuthHelper.get_bearer_token
                  (.authResult "a1" (some "r1") (some 3600) none) .malformed 1000
                  (some tokNeedsRefresh)).2.2) :=
  (c7_refresh_if_needed_catches_exactly_token_expired 300 tokNeedsRefresh 1000
      (.clientError "NotAuthorizedException" "gone")
      (.authResult "a1" (some "r1") (some 3600) none) .malformed
      (.tokenExpired ("Refresh token expired or invalid: " ++ "gone"))
      (some tokNeedsRefresh) 1 (by decide) (by decide) rfl).1
    ("Refresh token expired or invalid: " ++ "gone") rfl

/-- C8: the needs-refresh predicate is inclusive at the buffer boundary: a
token whose `expires_at` is exactly `now + refresh_buffer_seconds` is judged
as needing refresh. -/
theorem c8_needs_refresh_boundary_inclusive
    (t : TokenResponse) (buffer now : Int) :
    TokenManager._needs_refresh buffer { t with expires_at := some (now + buffer) }
        now = true := by
  simp [TokenManager._needs_refresh]

/-- C9: the claim says N concurrent `get_valid_token()` callers on an expired
token cause exactly one provider exchange, the others observing the
refreshed token. Already a single caller refutes this: holding the manager's
non-reentrant lock, `get_valid_token` re-enters `refresh_if_needed`'s lock
acquisition and blocks forever, so zero exchanges happen and no caller
returns a token, whatever the provider would answer. -/
theorem c9_expired_token_refresh_exchange_never_invoked
    (loginResp challengeResp refreshResp : CognitoResult) :
    TokenManager.get_valid_token 300 loginResp challengeResp refreshResp 1000
        (some tokExpired) false
      = (none, 0) := rfl

/-- C10: `refresh_if_needed()` on a manager whose client holds no current
token raises `AuthenticationError ("No token available for refresh")`,
performs zero provider round trips (no re-authentication), and leaves the
token state unchanged (still no token). -/
theorem c10_refresh_if_needed_no_token_raises
    (buffer : Int) (refreshResp loginResp challengeResp : CognitoResult)
    (now : Int) :
    TokenManager.refresh_if_needed buffer refreshResp loginResp challengeResp
        now none false
      = (some (.error (.authenticationError "No token available for refresh"),
               none), 0) := rfl
